import Mathlib

/-!
Shallow embedding of the BlueZ hcid adapter state machine
(`src/hcid/adapter.c`) and of the audio device connection state machine
(`src/profiles/audio/device.c`), together with theorems settling the
specification claims about them.

External collaborators (the HCI hardware link, glib timers and watches,
the D-Bus transport, the persistent store) are modelled as explicit
parameters or as fields recording the effects the C code performs on
them, so every embedded function is a pure, executable Lean function.
-/

namespace Bluez

/-- Adapter mode constants.  The numeric values come from the hcid
header (not under `src/`); the spec fixes their relative order
("ordered by discoverability": Off < Connectable < Discoverable and
Limited), which is all the code under `src/` relies on via the
`global_mode < mode` comparisons. -/
def MODE_OFF : Nat := 0

/-- Connectable mode (page scan only). -/
def MODE_CONNECTABLE : Nat := 1

/-- Discoverable mode (page and inquiry scan). -/
def MODE_DISCOVERABLE : Nat := 2

/-- Limited discoverable mode. -/
def MODE_LIMITED : Nat := 3

/-- Unknown mode value returned by `str2mode` for unrecognised strings.
Its concrete value is immaterial; it is distinct from the four real
modes. -/
def MODE_UNKNOWN : Nat := 0xdd

/-- ASCII lower-casing of one character code, as C `tolower` behaves in
the C locale used by `strcasecmp`. -/
def asciiLowerNat (n : Nat) : Nat :=
  if 65 ≤ n ∧ n ≤ 90 then n + 32 else n

/-- Character codes of a string after ASCII lower-casing. -/
def lowerCodes (s : String) : List Nat :=
  s.data.map (fun c => asciiLowerNat c.toNat)

/-- Model of C `strcasecmp(a, b) == 0`: case-insensitive (ASCII)
string equality. -/
def strcasecmpEq (a b : String) : Bool :=
  lowerCodes a == lowerCodes b

/-- Embedding of `mode2str` (adapter.c:308): maps a mode constant to
its canonical lower-case name. -/
def mode2str (mode : Nat) : String :=
  if mode = MODE_OFF then "off"
  else if mode = MODE_CONNECTABLE then "connectable"
  else if mode = MODE_DISCOVERABLE then "discoverable"
  else if mode = MODE_LIMITED then "limited"
  else "unknown"

/-- Embedding of `str2mode` (adapter.c:337).  The C function takes the
adapter address only to resolve the string "on" through `on_mode`,
which reads the persistent store; that store-dependent result is the
parameter `on_res` here (adapter.c:324 `on_mode` returns
`MODE_CONNECTABLE` when the store has no entry, else recursively
parses the stored string). -/
def str2mode (on_res : Nat) (mode : String) : Nat :=
  if strcasecmpEq "off" mode then MODE_OFF
  else if strcasecmpEq "connectable" mode then MODE_CONNECTABLE
  else if strcasecmpEq "discoverable" mode then MODE_DISCOVERABLE
  else if strcasecmpEq "limited" mode then MODE_LIMITED
  else if strcasecmpEq "on" mode then on_res
  else MODE_UNKNOWN

theorem str2mode_of_off (on_res : Nat) (s : String)
    (h : lowerCodes s = lowerCodes "off") : str2mode on_res s = MODE_OFF := by
  simp only [str2mode, strcasecmpEq, h]
  rw [if_pos (by decide)]

theorem str2mode_of_connectable (on_res : Nat) (s : String)
    (h : lowerCodes s = lowerCodes "connectable") :
    str2mode on_res s = MODE_CONNECTABLE := by
  simp only [str2mode, strcasecmpEq, h]
  rw [if_neg (by decide), if_pos (by decide)]

theorem str2mode_of_discoverable (on_res : Nat) (s : String)
    (h : lowerCodes s = lowerCodes "discoverable") :
    str2mode on_res s = MODE_DISCOVERABLE := by
  simp only [str2mode, strcasecmpEq, h]
  rw [if_neg (by decide), if_neg (by decide), if_pos (by decide)]

theorem str2mode_of_limited (on_res : Nat) (s : String)
    (h : lowerCodes s = lowerCodes "limited") :
    str2mode on_res s = MODE_LIMITED := by
  simp only [str2mode, strcasecmpEq, h]
  rw [if_neg (by decide), if_neg (by decide), if_neg (by decide),
    if_pos (by decide)]

theorem str2mode_of_unknown (on_res : Nat) (s : String)
    (h1 : lowerCodes s ≠ lowerCodes "off")
    (h2 : lowerCodes s ≠ lowerCodes "connectable")
    (h3 : lowerCodes s ≠ lowerCodes "discoverable")
    (h4 : lowerCodes s ≠ lowerCodes "limited")
    (h5 : lowerCodes s ≠ lowerCodes "on") :
    str2mode on_res s = MODE_UNKNOWN := by
  simp only [str2mode, strcasecmpEq]
  rw [if_neg, if_neg, if_neg, if_neg, if_neg]
  · simp only [beq_iff_eq]
    exact fun hh => h5 hh.symm
  · simp only [beq_iff_eq]
    exact fun hh => h4 hh.symm
  · simp only [beq_iff_eq]
    exact fun hh => h3 hh.symm
  · simp only [beq_iff_eq]
    exact fun hh => h2 hh.symm
  · simp only [beq_iff_eq]
    exact fun hh => h1 hh.symm

/-- C10: for every mode value in {Off, Connectable, Discoverable,
Limited} and every resolution of the address-dependent "on" lookup,
`str2mode` inverts `mode2str`; `str2mode` matches the mode names
case-insensitively (any string with the same ASCII-lowered character
codes parses the same), and returns `MODE_UNKNOWN` for any string
outside {off, connectable, discoverable, limited, on}
(case-insensitively). -/
theorem C10_mode_roundtrip (on_res m : Nat)
    (hm : m = MODE_OFF ∨ m = MODE_CONNECTABLE ∨ m = MODE_DISCOVERABLE ∨
          m = MODE_LIMITED) :
    str2mode on_res (mode2str m) = m ∧
    (∀ s : String, lowerCodes s = lowerCodes (mode2str m) →
      str2mode on_res s = m) ∧
    (∀ s : String, lowerCodes s ≠ lowerCodes "off" →
      lowerCodes s ≠ lowerCodes "connectable" →
      lowerCodes s ≠ lowerCodes "discoverable" →
      lowerCodes s ≠ lowerCodes "limited" →
      lowerCodes s ≠ lowerCodes "on" →
      str2mode on_res s = MODE_UNKNOWN) := by
  rcases hm with h | h | h | h <;> subst h
  · exact ⟨str2mode_of_off on_res _ rfl,
      fun s hs => str2mode_of_off on_res s hs,
      fun s h1 h2 h3 h4 h5 => str2mode_of_unknown on_res s h1 h2 h3 h4 h5⟩
  · exact ⟨str2mode_of_connectable on_res _ rfl,
      fun s hs => str2mode_of_connectable on_res s hs,
      fun s h1 h2 h3 h4 h5 => str2mode_of_unknown on_res s h1 h2 h3 h4 h5⟩
  · exact ⟨str2mode_of_discoverable on_res _ rfl,
      fun s hs => str2mode_of_discoverable on_res s hs,
      fun s h1 h2 h3 h4 h5 => str2mode_of_unknown on_res s h1 h2 h3 h4 h5⟩
  · exact ⟨str2mode_of_limited on_res _ rfl,
      fun s hs => str2mode_of_limited on_res s hs,
      fun s h1 h2 h3 h4 h5 => str2mode_of_unknown on_res s h1 h2 h3 h4 h5⟩

/-- Witness for C10 at a concrete input: the round trip holds for
`MODE_DISCOVERABLE`, including the case-insensitive match on
"DiScOvErAbLe", and "bogus" maps to `MODE_UNKNOWN`. -/
theorem C10_mode_roundtrip_witness :
    str2mode 7 (mode2str MODE_DISCOVERABLE) = MODE_DISCOVERABLE ∧
    str2mode 7 "DiScOvErAbLe" = MODE_DISCOVERABLE ∧
    str2mode 7 "bogus" = MODE_UNKNOWN := by
  have h := C10_mode_roundtrip 7 MODE_DISCOVERABLE (Or.inr (Or.inr (Or.inl rfl)))
  exact ⟨h.1, h.2.1 "DiScOvErAbLe" (by decide), h.2.2 "bogus" (by decide)
    (by decide) (by decide) (by decide) (by decide)⟩

/-! ## Adapter data model -/

/-- Scan-enable bit: no scans.  Values from the Bluetooth HCI header
(external to the repository). -/
def SCAN_DISABLED : Nat := 0x00

/-- Scan-enable bit: inquiry scan. -/
def SCAN_INQUIRY : Nat := 0x01

/-- Scan-enable bit: page scan. -/
def SCAN_PAGE : Nat := 0x02

/-- hcid off-mode policy: bring the device down when mode is off. -/
def HCID_OFFMODE_DEVDOWN : Nat := 0

/-- hcid off-mode policy: keep the device up, disable scans only. -/
def HCID_OFFMODE_NOSCAN : Nat := 1

/-- HCI status code for a generic authentication failure (Bluetooth
HCI header, external to the repository). -/
def HCI_AUTHENTICATION_FAILURE : Nat := 0x05

/-- The C errno value EALREADY, tested by `set_mode` after a failed
HCIDEVUP ioctl. -/
def EALREADY : Nat := 114

/-- The C errno value ENETDOWN, passed by
`create_bonding_conn_complete` to the connection-attempt-failed
reply. -/
def ENETDOWN : Nat := 100

/-- Name status of a found device with an in-flight remote-name
request (hcid header `NAME_REQUESTED`). -/
def NAME_REQUESTED : Nat := 1

/-- Discovery-type bit for a standard inquiry (hcid header). -/
def STD_INQUIRY : Nat := 1

/-- Discovery-type bit for name resolution (hcid header). -/
def RESOLVE_NAME : Nat := 16

/-- A mode session (`struct mode_req`, the fields the session registry
reads: the requesting client's bus name and the requested mode). -/
structure ModeReq where
  sender : String
  mode : Nat
deriving DecidableEq, Repr

/-- A pending PIN request (`struct pending_pin_info`). -/
structure PinReq where
  bdaddr : String
  replied : Bool
deriving DecidableEq, Repr

/-- The in-flight bonding request (`struct bonding_request_info`).
`io_closed` records a `g_io_channel_close` on its channel. -/
structure BondingInfo where
  bdaddr : String
  sender : String
  auth_active : Bool
  hci_status : Nat
  cancel : Bool
  io_closed : Bool
deriving DecidableEq, Repr

/-- An entry of the found-devices list (`struct remote_dev_info`). -/
structure FoundDev where
  bdaddr : String
  name_status : Nat
deriving DecidableEq, Repr

/-- The adapter state (`struct adapter`), restricted to the fields the
claimed functions read or write.  `live_timers` and `next_timer` model
the set of armed glib timeout sources (`g_timeout_add` returns a fresh
nonzero source id, `g_source_remove` disarms one); `discov_listener`
models the registered disconnect watch handle (0 = none). -/
structure Adapter where
  up : Bool
  mode : Nat
  global_mode : Nat
  scan_enable : Nat
  discov_timeout : Nat
  timeout_id : Nat
  live_timers : List Nat
  next_timer : Nat
  sessions : List ModeReq
  agent : Bool
  discov_active : Bool
  pdiscov_active : Bool
  bonding : Option BondingInfo
  pin_reqs : List PinReq
  discov_requestor : Option String
  discov_type : Nat
  discov_listener : Nat
  found_devices : List FoundDev
deriving DecidableEq, Repr

/-- Results of the short synchronous hardware calls `set_mode` and the
discovery/bonding handlers make (open, ioctls, command requests), as
one environment record. -/
structure HciEnv where
  open_ok : Bool
  devup_ok : Bool
  devup_errno : Nat
  devdown_ok : Bool
  devdown_errno : Nat
  limited_err : Nat
  send_ok : Bool
  send_errno : Nat
  cmd_status : Nat
deriving DecidableEq, Repr

/-- Model of `bt_error`: maps a nonzero HCI status byte to the errno
surfaced to the caller.  The claims only rely on the reply being an
error, not on the mapping, so it is kept as the identity. -/
def bt_error (status : Nat) : Nat := status

/-- D-Bus replies produced by the adapter handlers.  `deferred` models
a handler returning NULL and holding the request for an asynchronous
reply. -/
inductive DBusReply where
  | ok
  | invalid_args
  | no_such_adapter
  | not_ready
  | failed (errno : Nat)
  | in_progress (s : String)
  | not_authorized
  | bonding_not_in_progress
  | auth_canceled
  | connection_attempt_failed (errno : Nat)
  | authentication_failure (status : Nat)
  | custom_failed (s : String)
  | deferred
deriving DecidableEq, Repr

/-! ## ModeController: set_mode / confirm_mode / adapter_set_mode -/

/-- The scan-enable bitmask chosen by the switch at the top of
`set_mode` (adapter.c:620); `none` models the `invalid_args` default
branch. -/
def scanEnableOf (new_mode : Nat) : Option Nat :=
  if new_mode = MODE_OFF then some SCAN_DISABLED
  else if new_mode = MODE_CONNECTABLE then some SCAN_PAGE
  else if new_mode = MODE_DISCOVERABLE ∨ new_mode = MODE_LIMITED then
    some (SCAN_PAGE ||| SCAN_INQUIRY)
  else none

/-- Result of `set_mode`: the reply, the adapter state after the call,
whether the ModeChanged signal was emitted on the unchanged-bitmask
branch, and whether the new mode was persisted to the store
(`write_device_mode`). -/
structure SetModeResult where
  reply : DBusReply
  adapter : Adapter
  mode_changed_signal : Bool
  wrote_store : Bool
deriving DecidableEq, Repr

/-- The `done` label of `set_mode` (adapter.c:722): persists the new
mode to the store (`write_device_mode`), closes the hardware link and
commits `mode := new_mode` with a success reply. -/
def set_mode_done (new_mode : Nat) (a2 : Adapter) (signal : Bool) :
    SetModeResult :=
  ⟨DBusReply.ok, { a2 with mode := new_mode }, signal, true⟩

/-- The discoverable-timeout timer manipulation on the
unchanged-bitmask branch of `set_mode` (adapter.c:714):
`g_source_remove` of any previous timer, then `g_timeout_add` of a
`discov_timeout`-second timer guarded by the source's condition
`!adapter->sessions && !adapter->discov_timeout`. -/
def discov_timer_update (a : Adapter) : Adapter :=
  let a1 := if a.timeout_id ≠ 0 then
    { a with live_timers := a.live_timers.erase a.timeout_id } else a
  if a1.sessions = [] ∧ a1.discov_timeout = 0 then
    { a1 with
      timeout_id := a1.next_timer,
      live_timers := a1.live_timers ++ [a1.next_timer],
      next_timer := a1.next_timer + 1 }
  else a1

/-- Embedding of `set_mode` (adapter.c:609).  `offmode` is the global
`hcid.offmode` policy; `hw` the outcomes of the hardware calls.  The
paths mirror the source: the power-up/power-down ioctl special cases
with their `goto done`, the `set_limited_discoverable` command, the
write-scan-enable request when the bitmask changes, and on the
unchanged-bitmask branch the ModeChanged signal plus the
discoverable-timeout timer update. -/
def set_mode (offmode : Nat) (hw : HciEnv) (a : Adapter) (new_mode : Nat) :
    SetModeResult :=
  match scanEnableOf new_mode with
  | none => ⟨DBusReply.invalid_args, a, false, false⟩
  | some scan_enable =>
    if ¬ hw.open_ok then ⟨DBusReply.no_such_adapter, a, false, false⟩
    else if ¬ a.up ∧ (offmode = HCID_OFFMODE_NOSCAN ∨
        (offmode = HCID_OFFMODE_DEVDOWN ∧ scan_enable ≠ SCAN_DISABLED)) ∧
        hw.devup_ok then
      set_mode_done new_mode a false
    else if ¬ a.up ∧ (offmode = HCID_OFFMODE_NOSCAN ∨
        (offmode = HCID_OFFMODE_DEVDOWN ∧ scan_enable ≠ SCAN_DISABLED)) ∧
        hw.devup_errno ≠ EALREADY then
      ⟨DBusReply.failed hw.devup_errno, a, false, false⟩
    else if a.up ∧ scan_enable = SCAN_DISABLED ∧
        offmode = HCID_OFFMODE_DEVDOWN then
      if ¬ hw.devdown_ok then
        ⟨DBusReply.failed hw.devdown_errno, a, false, false⟩
      else set_mode_done new_mode a false
    else if hw.limited_err ≠ 0 then
      ⟨DBusReply.failed hw.limited_err, a, false, false⟩
    else if a.scan_enable ≠ scan_enable then
      if ¬ hw.send_ok then ⟨DBusReply.failed hw.send_errno, a, false, false⟩
      else if hw.cmd_status ≠ 0 then
        ⟨DBusReply.failed (bt_error hw.cmd_status), a, false, false⟩
      else set_mode_done new_mode a false
    else
      if scan_enable &&& SCAN_INQUIRY ≠ 0 ∧ new_mode ≠ a.mode then
        set_mode_done new_mode (discov_timer_update a) true
      else set_mode_done new_mode a false

/-- C3: whenever any hardware step of `set_mode` fails (power-up or
power-down ioctl, limited-discoverable command, write-scan-enable send
failure, or a nonzero hardware status reply), the call replies with an
error and the whole adapter state — in particular the enacted `mode`
field — is left unchanged; `mode` is assigned the requested value
exactly on the success reply. -/
theorem C3_set_mode_no_partial_commit (offmode : Nat) (hw : HciEnv)
    (a : Adapter) (new_mode : Nat) :
    ((set_mode offmode hw a new_mode).reply ≠ DBusReply.ok →
      (set_mode offmode hw a new_mode).adapter = a) ∧
    ((set_mode offmode hw a new_mode).reply = DBusReply.ok →
      (set_mode offmode hw a new_mode).adapter.mode = new_mode) := by
  have h : ∀ r : SetModeResult, r = set_mode offmode hw a new_mode →
      (r.reply ≠ DBusReply.ok → r.adapter = a) ∧
      (r.reply = DBusReply.ok → r.adapter.mode = new_mode) := by
    intro r hr
    unfold set_mode at hr
    rcases hs : scanEnableOf new_mode with _ | scan <;> rw [hs] at hr
    · subst hr; simp
    · repeat' split at hr
      all_goals subst hr
      all_goals simp [set_mode_done]
  exact h _ rfl

/-- Hardware environment in which every call succeeds. -/
def hw_all_ok : HciEnv :=
  { open_ok := true, devup_ok := true, devup_errno := 0,
    devdown_ok := true, devdown_errno := 0, limited_err := 0,
    send_ok := true, send_errno := 0, cmd_status := 0 }

/-- Hardware environment in which `hci_send_req` fails with EIO. -/
def hw_send_fail : HciEnv := { hw_all_ok with send_ok := false, send_errno := 5 }

/-- A quiescent adapter: up, connectable, no sessions, no discovery,
no bonding. -/
def adapterBase : Adapter :=
  { up := true, mode := MODE_CONNECTABLE, global_mode := MODE_CONNECTABLE,
    scan_enable := SCAN_PAGE, discov_timeout := 0, timeout_id := 0,
    live_timers := [], next_timer := 1, sessions := [], agent := false,
    discov_active := false, pdiscov_active := false, bonding := none,
    pin_reqs := [], discov_requestor := none, discov_type := 0,
    discov_listener := 0, found_devices := [] }

/-- Witness for C3: with a failing write-scan-enable send the reply is
an error and the adapter is untouched; with all hardware calls
succeeding the mode is committed. -/
theorem C3_set_mode_no_partial_commit_witness :
    (set_mode HCID_OFFMODE_NOSCAN hw_send_fail adapterBase
      MODE_DISCOVERABLE).adapter = adapterBase ∧
    (set_mode HCID_OFFMODE_NOSCAN hw_all_ok adapterBase
      MODE_DISCOVERABLE).adapter.mode = MODE_DISCOVERABLE := by
  exact ⟨(C3_set_mode_no_partial_commit HCID_OFFMODE_NOSCAN hw_send_fail
      adapterBase MODE_DISCOVERABLE).1 (by decide),
    (C3_set_mode_no_partial_commit HCID_OFFMODE_NOSCAN hw_all_ok
      adapterBase MODE_DISCOVERABLE).2 (by decide)⟩

/-- Adapter already in limited mode with both scan bits set, no
sessions, and a configured 180 second discoverable timeout. -/
def c4_adapter : Adapter :=
  { adapterBase with
    mode := MODE_LIMITED, global_mode := MODE_LIMITED,
    scan_enable := SCAN_PAGE ||| SCAN_INQUIRY, discov_timeout := 180 }

/-- C4 (code bug): entering Discoverable from Limited with the
scan-enable bitmask unchanged and no sessions, the source arms the
discoverable-timeout timer exactly when `discov_timeout` is ZERO
(guard `!adapter->sessions && !adapter->discov_timeout`,
adapter.c:717) — a zero-period timer — and never arms it when a
nonzero timeout (here 180) is configured, contradicting the claim
"armed if and only if the configured timeout is greater than zero". -/
theorem C4_discov_timer_guard_inverted :
    (set_mode HCID_OFFMODE_NOSCAN hw_all_ok c4_adapter
      MODE_DISCOVERABLE).reply = DBusReply.ok ∧
    (set_mode HCID_OFFMODE_NOSCAN hw_all_ok c4_adapter
      MODE_DISCOVERABLE).adapter.mode = MODE_DISCOVERABLE ∧
    (set_mode HCID_OFFMODE_NOSCAN hw_all_ok c4_adapter
      MODE_DISCOVERABLE).mode_changed_signal = true ∧
    (set_mode HCID_OFFMODE_NOSCAN hw_all_ok c4_adapter
      MODE_DISCOVERABLE).adapter.live_timers = [] ∧
    (set_mode HCID_OFFMODE_NOSCAN hw_all_ok
      { c4_adapter with discov_timeout := 0 }
      MODE_DISCOVERABLE).adapter.live_timers = [1] := by
  decide

/-- Embedding of `confirm_mode` (adapter.c:769).  With no registered
agent the source immediately returns a plain success reply — without
running `set_mode`.  With an agent, `agent_confirm_mode_change` either
accepts the submission (the handler returns NULL and the reply is
deferred to `confirm_mode_cb`) or fails, which is reported as
invalid arguments; `agent_confirm_ok` models that submission
outcome. -/
def confirm_mode (agent_confirm_ok : Bool) (a : Adapter) : SetModeResult :=
  if ¬ a.agent then ⟨DBusReply.ok, a, false, false⟩
  else if agent_confirm_ok then ⟨DBusReply.deferred, a, false, false⟩
  else ⟨DBusReply.invalid_args, a, false, false⟩

/-- Embedding of `adapter_set_mode` (adapter.c:797): stores the parsed
mode in `global_mode`, replies immediately when it equals the enacted
mode, routes through `confirm_mode` when sessions are active and the
new global mode is numerically lower than the enacted mode, and
otherwise commits through `set_mode`. -/
def adapter_set_mode (offmode : Nat) (hw : HciEnv) (on_res : Nat)
    (agent_confirm_ok : Bool) (a0 : Adapter) (mode_str : String) :
    SetModeResult :=
  let a := { a0 with global_mode := str2mode on_res mode_str }
  if a.global_mode = a.mode then ⟨DBusReply.ok, a, false, false⟩
  else if a.sessions ≠ [] ∧ a.global_mode < a.mode then
    confirm_mode agent_confirm_ok a
  else set_mode offmode hw a (str2mode on_res mode_str)

/-- Adapter in discoverable mode with one active session and no
registered agent. -/
def c2_adapter : Adapter :=
  { adapterBase with
    mode := MODE_DISCOVERABLE, global_mode := MODE_DISCOVERABLE,
    scan_enable := SCAN_PAGE ||| SCAN_INQUIRY,
    sessions := [⟨"client1", MODE_DISCOVERABLE⟩] }

/-- Counterexample to C2: SetMode("connectable") with one active
session, requested mode numerically lower than the enacted mode, and
no agent registered replies success but does NOT enact the new mode —
the enacted mode stays Discoverable, because the agent-less branch of
`confirm_mode` returns a plain method return without calling
`set_mode` (adapter.c:776). -/
theorem C2_counterexample :
    (adapter_set_mode HCID_OFFMODE_NOSCAN hw_all_ok 1 true c2_adapter
      "connectable").reply = DBusReply.ok ∧
    (adapter_set_mode HCID_OFFMODE_NOSCAN hw_all_ok 1 true c2_adapter
      "connectable").adapter.mode = MODE_DISCOVERABLE ∧
    MODE_DISCOVERABLE ≠ MODE_CONNECTABLE := by
  decide

/-- C2 (amended): for every SetMode call with at least one active
session and a requested global mode numerically lower than the enacted
mode, if no agent is registered the call replies success immediately
but does not enact the requested mode: the enacted `mode` field is
left unchanged and only `global_mode` is updated. -/
theorem C2_no_agent_confirm_skips_commit (offmode : Nat) (hw : HciEnv)
    (on_res : Nat) (agent_confirm_ok : Bool) (a : Adapter) (mode_str : String)
    (hsess : a.sessions ≠ [])
    (hlt : str2mode on_res mode_str < a.mode)
    (hagent : a.agent = false) :
    (adapter_set_mode offmode hw on_res agent_confirm_ok a mode_str).reply =
      DBusReply.ok ∧
    (adapter_set_mode offmode hw on_res agent_confirm_ok a
      mode_str).adapter.mode = a.mode ∧
    (adapter_set_mode offmode hw on_res agent_confirm_ok a
      mode_str).adapter.global_mode = str2mode on_res mode_str := by
  simp [adapter_set_mode, confirm_mode, hagent, hsess, hlt, Nat.ne_of_lt hlt]

/-- Witness for the amended C2 at the concrete counterexample input. -/
theorem C2_no_agent_confirm_skips_commit_witness :
    (adapter_set_mode HCID_OFFMODE_NOSCAN hw_all_ok 1 true c2_adapter
      "connectable").reply = DBusReply.ok ∧
    (adapter_set_mode HCID_OFFMODE_NOSCAN hw_all_ok 1 true c2_adapter
      "connectable").adapter.mode = c2_adapter.mode ∧
    (adapter_set_mode HCID_OFFMODE_NOSCAN hw_all_ok 1 true c2_adapter
      "connectable").adapter.global_mode = str2mode 1 "connectable" :=
  C2_no_agent_confirm_skips_commit HCID_OFFMODE_NOSCAN hw_all_ok 1 true
    c2_adapter "connectable" (by decide) (by decide) (by decide)

/-! ## SessionRegistry: request_mode / release_mode / session_exit -/

/-- Result of a simple handler: reply plus adapter state. -/
structure HandlerResult where
  reply : DBusReply
  adapter : Adapter
deriving DecidableEq, Repr

/-- Embedding of `session_exit` (adapter.c:3782): removes the session
from the registry.  When the registry becomes empty the source merely
logs "Falling back to '%s' mode": the `set_mode` re-commit appears
only inside a comment marked FIXME (adapter.c:3791), so beyond the
list removal no adapter state changes. -/
def session_exit (req : ModeReq) (a : Adapter) : Adapter :=
  { a with sessions := a.sessions.erase req }

/-- Embedding of `request_mode` (adapter.c:3800).  `agent_confirm_ok`
models `agent_confirm_mode_change` accepting the submission; on its
failure the source frees the request object but leaves the just
appended entry in the sessions list (adapter.c:3837 appends before the
call and the failure path at adapter.c:3845 does not remove it). -/
def request_mode (on_res : Nat) (agent_confirm_ok : Bool) (a : Adapter)
    (sender : String) (mode_str : String) : HandlerResult :=
  let new_mode := str2mode on_res mode_str
  if ¬ (new_mode = MODE_CONNECTABLE ∨ new_mode = MODE_DISCOVERABLE) then
    ⟨DBusReply.invalid_args, a⟩
  else if ¬ a.agent then ⟨DBusReply.custom_failed "No agent registered", a⟩
  else if a.sessions.any (fun s => s.sender == sender) then
    ⟨DBusReply.custom_failed "Mode already requested", a⟩
  else
    let a1 := if a.sessions = [] then { a with global_mode := a.mode } else a
    let a2 := { a1 with sessions := a1.sessions ++ [⟨sender, new_mode⟩] }
    if new_mode ≤ a2.mode then ⟨DBusReply.ok, a2⟩
    else if agent_confirm_ok then ⟨DBusReply.deferred, a2⟩
    else ⟨DBusReply.invalid_args, a2⟩

/-- Embedding of the success path of `confirm_mode_cb` (adapter.c:741):
the agent approved, so `set_mode` runs with the mode held in the
pending request and its reply is sent to the requester. -/
def confirm_mode_cb (offmode : Nat) (hw : HciEnv) (req : ModeReq)
    (a : Adapter) : SetModeResult :=
  set_mode offmode hw a req.mode

/-- Embedding of `release_mode` (adapter.c:3856): finds the sender's
session by identity match and tears it down via `session_exit`. -/
def release_mode (a : Adapter) (sender : String) : HandlerResult :=
  match a.sessions.find? (fun s => s.sender == sender) with
  | none => ⟨DBusReply.custom_failed "No Mode to release", a⟩
  | some req => ⟨DBusReply.ok, session_exit req a⟩

/-- Quiescent connectable adapter with a registered agent. -/
def c1_adapter0 : Adapter := { adapterBase with agent := true }

/-- Step 1 of the C1 trace: RequestMode("discoverable") by client1. -/
def c1_after_request : HandlerResult :=
  request_mode 1 true c1_adapter0 "client1" "discoverable"

/-- Step 2 of the C1 trace: the agent approves and `confirm_mode_cb`
commits discoverable mode. -/
def c1_after_confirm : SetModeResult :=
  confirm_mode_cb HCID_OFFMODE_NOSCAN hw_all_ok ⟨"client1", MODE_DISCOVERABLE⟩
    c1_after_request.adapter

/-- Step 3 of the C1 trace: ReleaseMode() by client1 tears down the
last session. -/
def c1_after_release : HandlerResult :=
  release_mode c1_after_confirm.adapter "client1"

/-- C1 (code bug): creating the first session does snapshot
`global_mode := mode`, but after the last session is torn down the
sessions list is empty while `mode` (Discoverable) differs from
`global_mode` (Connectable): the fall-back re-commit in `session_exit`
is silently skipped — the source only logs and carries the `set_mode`
call inside a FIXME comment (adapter.c:3789), so the claimed invariant
"sessions empty ⇒ global_mode == mode" is violated by this trace. -/
theorem C1_empty_registry_invariant_violated :
    c1_after_request.reply = DBusReply.deferred ∧
    c1_after_request.adapter.global_mode = MODE_CONNECTABLE ∧
    c1_after_request.adapter.sessions = [⟨"client1", MODE_DISCOVERABLE⟩] ∧
    c1_after_confirm.reply = DBusReply.ok ∧
    c1_after_confirm.adapter.mode = MODE_DISCOVERABLE ∧
    c1_after_release.reply = DBusReply.ok ∧
    c1_after_release.adapter.sessions = [] ∧
    c1_after_release.adapter.mode = MODE_DISCOVERABLE ∧
    c1_after_release.adapter.global_mode = MODE_CONNECTABLE ∧
    c1_after_release.adapter.mode ≠ c1_after_release.adapter.global_mode := by
  decide

/-! ## DiscoveryCoordinator: adapter_discover_devices -/

/-- Embedding of `pending_remote_name_cancel` (adapter.c:233): if a
found-device entry carries an in-flight name request, the request is
cancelled on the hardware and the whole found-devices list is freed;
with no pending request, or when the hardware link cannot be opened,
the state is untouched. -/
def pending_remote_name_cancel (hw : HciEnv) (a : Adapter) : Adapter :=
  if a.found_devices.any (fun d => d.name_status == NAME_REQUESTED) then
    if ¬ hw.open_ok then a
    else { a with found_devices := [] }
  else a

theorem pending_remote_name_cancel_bonding (hw : HciEnv) (a : Adapter) :
    (pending_remote_name_cancel hw a).bonding = a.bonding := by
  unfold pending_remote_name_cancel
  split_ifs <;> rfl

/-- Result of `adapter_discover_devices`: the reply, the adapter
state, and whether the HCI inquiry command was submitted. -/
structure DiscoverResult where
  reply : DBusReply
  adapter : Adapter
  inquiry_sent : Bool
deriving DecidableEq, Repr

/-- Embedding of `adapter_discover_devices` (adapter.c:3205).  The
D-Bus signature check (no arguments expected) is assumed satisfied.
Note the source rejects with InProgress only on `discov_active` (a
standard inquiry) and on an in-flight bonding — `pdiscov_active` is
not consulted (adapter.c:3222). -/
def adapter_discover_devices (hw : HciEnv) (a0 : Adapter) (sender : String)
    (without_name_resolving : Bool) : DiscoverResult :=
  if ¬ a0.up then ⟨DBusReply.not_ready, a0, false⟩
  else if a0.discov_active then
    ⟨DBusReply.in_progress "Discover in progress", a0, false⟩
  else
    let a := pending_remote_name_cancel hw a0
    if a.bonding.isSome then
      ⟨DBusReply.in_progress "Bonding in progress", a, false⟩
    else if ¬ hw.open_ok then ⟨DBusReply.no_such_adapter, a, false⟩
    else if ¬ hw.send_ok then ⟨DBusReply.failed hw.send_errno, a, true⟩
    else if hw.cmd_status ≠ 0 then
      ⟨DBusReply.failed (bt_error hw.cmd_status), a, true⟩
    else
      ⟨DBusReply.ok,
        { a with
          discov_type := a.discov_type |||
            (if without_name_resolving then STD_INQUIRY
             else STD_INQUIRY ||| RESOLVE_NAME),
          discov_requestor := some sender,
          discov_listener := 1 }, true⟩

/-- Adapter with only a periodic discovery active. -/
def c5_adapter : Adapter := { adapterBase with pdiscov_active := true }

/-- Counterexample to C5: with a periodic discovery active (and no
standard discovery), DiscoverDevices is NOT rejected with InProgress —
the source checks only `discov_active`, so the call sends the inquiry
and succeeds. -/
theorem C5_counterexample :
    c5_adapter.pdiscov_active = true ∧
    c5_adapter.discov_active = false ∧
    (adapter_discover_devices hw_all_ok c5_adapter "client2" false).reply =
      DBusReply.ok ∧
    (adapter_discover_devices hw_all_ok c5_adapter "client2"
      false).inquiry_sent = true := by
  decide

/-- C5 (amended): DiscoverDevices is rejected with NotReady when the
adapter is administratively down (no hardware command sent, no
requestor recorded, adapter untouched), and with InProgress when a
STANDARD discovery is already active or a bonding is in progress; a
periodic-only discovery does not by itself cause rejection. -/
theorem C5_discover_devices_guards (hw : HciEnv) (a : Adapter)
    (sender : String) (wnr : Bool) :
    (a.up = false →
      (adapter_discover_devices hw a sender wnr).reply = DBusReply.not_ready ∧
      (adapter_discover_devices hw a sender wnr).inquiry_sent = false ∧
      (adapter_discover_devices hw a sender wnr).adapter = a) ∧
    (a.up = true → a.discov_active = true →
      (adapter_discover_devices hw a sender wnr).reply =
        DBusReply.in_progress "Discover in progress" ∧
      (adapter_discover_devices hw a sender wnr).inquiry_sent = false) ∧
    (a.up = true → a.discov_active = false → a.bonding.isSome →
      (adapter_discover_devices hw a sender wnr).reply =
        DBusReply.in_progress "Bonding in progress" ∧
      (adapter_discover_devices hw a sender wnr).inquiry_sent = false) := by
  refine ⟨fun h => ?_, fun h1 h2 => ?_, fun h1 h2 h3 => ?_⟩
  · simp [adapter_discover_devices, h]
  · simp [adapter_discover_devices, h1, h2]
  · simp [adapter_discover_devices, h1, h2,
      pending_remote_name_cancel_bonding, h3]

/-- A concrete in-flight bonding request. -/
def bonding1 : BondingInfo :=
  { bdaddr := "00:11:22:33:44:55", sender := "client1",
    auth_active := false, hci_status := 0, cancel := false,
    io_closed := false }

/-- Witness for the amended C5 at concrete inputs: an adapter that is
down, one with a standard discovery active, and one with an in-flight
bonding. -/
theorem C5_discover_devices_guards_witness :
    ((adapter_discover_devices hw_all_ok { adapterBase with up := false }
      "c" false).reply = DBusReply.not_ready ∧
     (adapter_discover_devices hw_all_ok { adapterBase with up := false }
      "c" false).inquiry_sent = false ∧
     (adapter_discover_devices hw_all_ok { adapterBase with up := false }
      "c" false).adapter = { adapterBase with up := false }) ∧
    ((adapter_discover_devices hw_all_ok
      { adapterBase with discov_active := true } "c" false).reply =
        DBusReply.in_progress "Discover in progress") ∧
    ((adapter_discover_devices hw_all_ok
      { adapterBase with bonding := some bonding1 } "c" false).reply =
        DBusReply.in_progress "Bonding in progress") :=
  ⟨(C5_discover_devices_guards hw_all_ok { adapterBase with up := false }
      "c" false).1 rfl,
   ((C5_discover_devices_guards hw_all_ok
      { adapterBase with discov_active := true } "c" false).2.1 rfl rfl).1,
   ((C5_discover_devices_guards hw_all_ok
      { adapterBase with bonding := some bonding1 } "c" false).2.2 rfl rfl
      rfl).1⟩

/-! ## BondingCoordinator: create_bonding_conn_complete and
adapter_cancel_bonding -/

/-- Embedding of `reply_authentication_failure` (adapter.c:2294): the
reply carries the last recorded hardware status, or the generic
`HCI_AUTHENTICATION_FAILURE` when none was recorded. -/
def reply_authentication_failure (b : BondingInfo) : DBusReply :=
  DBusReply.authentication_failure
    (if b.hci_status ≠ 0 then b.hci_status else HCI_AUTHENTICATION_FAILURE)

/-- GIOCondition bits delivered to the bonding I/O watch. -/
structure GIOCond where
  nval : Bool
  hup : Bool
  err : Bool
deriving DecidableEq, Repr

/-- Outcomes of the socket and HCI calls made by
`create_bonding_conn_complete`. -/
structure BondingIOEnv where
  getsockopt_ok : Bool
  getsockopt_errno : Nat
  sock_err : Nat
  conninfo_ok : Bool
  conninfo_errno : Nat
  open_ok : Bool
  send_ok : Bool
  send_errno : Nat
  cmd_status : Nat
deriving DecidableEq, Repr

/-- Result of `create_bonding_conn_complete`: the reply sent to the
bonding requester (`none` when no reply is produced), the adapter
state, whether the failure path closed the I/O channel, and whether
the watch was rearmed for the next event. -/
structure BondingCompleteResult where
  reply : Option DBusReply
  adapter : Adapter
  closed_io : Bool
  rearmed : Bool
deriving DecidableEq, Repr

/-- Embedding of `create_bonding_conn_complete` (adapter.c:2490).
With no pending bonding the channel is just closed (defensive branch).
`G_IO_NVAL` goes straight to cleanup; hangup/error reply
connection-attempt-failed before the authentication request was issued
and an authentication failure after; the remaining steps (SO_ERROR
getsockopt, its nonzero result, L2CAP_CONNINFO, device open, the
HCI_Authentication_Requested send and its status) each fail to the
`failed` label (close channel, drop any temporary device, free the
bonding).  On success `auth_active` is set and the watch rearmed for
the next hangup/error event. -/
def create_bonding_conn_complete (env : BondingIOEnv) (cond : GIOCond)
    (a : Adapter) : BondingCompleteResult :=
  match a.bonding with
  | none => ⟨none, a, true, false⟩
  | some b =>
    if cond.nval then
      ⟨some DBusReply.auth_canceled, { a with bonding := none }, false, false⟩
    else if cond.hup || cond.err then
      if ¬ b.auth_active then
        ⟨some (DBusReply.connection_attempt_failed ENETDOWN),
         { a with bonding := none }, true, false⟩
      else
        ⟨some (reply_authentication_failure b),
         { a with bonding := none }, true, false⟩
    else if ¬ env.getsockopt_ok then
      ⟨some (DBusReply.failed env.getsockopt_errno),
       { a with bonding := none }, true, false⟩
    else if env.sock_err ≠ 0 then
      if b.auth_active then
        ⟨some (reply_authentication_failure b),
         { a with bonding := none }, true, false⟩
      else
        ⟨some (DBusReply.connection_attempt_failed env.sock_err),
         { a with bonding := none }, true, false⟩
    else if ¬ env.conninfo_ok then
      ⟨some (DBusReply.failed env.conninfo_errno),
       { a with bonding := none }, true, false⟩
    else if ¬ env.open_ok then
      ⟨some DBusReply.no_such_adapter, { a with bonding := none }, true, false⟩
    else if ¬ env.send_ok then
      ⟨some (DBusReply.failed env.send_errno),
       { a with bonding := none }, true, false⟩
    else if env.cmd_status ≠ 0 then
      ⟨some (DBusReply.failed (bt_error env.cmd_status)),
       { a with bonding := none }, true, false⟩
    else
      ⟨none, { a with bonding := some { b with auth_active := true } },
       false, true⟩

/-- C6: when an in-flight bonding's raw link reports hangup or error
(and the channel is not invalidated), the requester receives
ConnectionAttemptFailed if the authentication request had not yet been
issued, and otherwise an authentication-failure reply carrying the
last known hardware status code, defaulting to the generic
authentication-failure status when none was recorded; the bonding is
torn down either way. -/
theorem C6_bonding_hangup_replies (env : BondingIOEnv) (cond : GIOCond)
    (a : Adapter) (b : BondingInfo)
    (hb : a.bonding = some b)
    (hnval : cond.nval = false)
    (hhe : cond.hup = true ∨ cond.err = true) :
    (create_bonding_conn_complete env cond a).reply =
      some (if b.auth_active then
        DBusReply.authentication_failure
          (if b.hci_status ≠ 0 then b.hci_status
           else HCI_AUTHENTICATION_FAILURE)
      else DBusReply.connection_attempt_failed ENETDOWN) ∧
    (create_bonding_conn_complete env cond a).adapter.bonding = none := by
  unfold create_bonding_conn_complete
  rw [hb]
  rcases hhe with h | h <;>
    cases hauth : b.auth_active <;>
    simp [hnval, h, hauth, reply_authentication_failure]

/-- The bonding of `bonding1` after the authentication request was
issued and a hardware status 0x13 was recorded. -/
def bonding_auth19 : BondingInfo :=
  { bonding1 with auth_active := true, hci_status := 19 }

/-- The bonding of `bonding1` after the authentication request was
issued, with no hardware status recorded. -/
def bonding_auth0 : BondingInfo := { bonding1 with auth_active := true }

/-- Witness for C6: a hangup before `auth_active` was set replies
ConnectionAttemptFailed; a hangup after, with recorded status 0x13,
replies AuthenticationFailure(0x13); an error event after, with no
recorded status, replies the generic 0x05. -/
theorem C6_bonding_hangup_replies_witness :
    ((create_bonding_conn_complete ⟨true, 0, 0, true, 0, true, true, 0, 0⟩
      ⟨false, true, false⟩
      { adapterBase with bonding := some bonding1 }).reply =
        some (DBusReply.connection_attempt_failed ENETDOWN)) ∧
    ((create_bonding_conn_complete ⟨true, 0, 0, true, 0, true, true, 0, 0⟩
      ⟨false, true, false⟩
      { adapterBase with bonding := some bonding_auth19 }).reply =
        some (DBusReply.authentication_failure 19)) ∧
    ((create_bonding_conn_complete ⟨true, 0, 0, true, 0, true, true, 0, 0⟩
      ⟨false, false, true⟩
      { adapterBase with bonding := some bonding_auth0 }).reply =
        some (DBusReply.authentication_failure HCI_AUTHENTICATION_FAILURE)) := by
  refine ⟨?_, ?_, ?_⟩
  · exact ((C6_bonding_hangup_replies _ _ _ bonding1 rfl rfl
      (Or.inl rfl)).1).trans (by decide)
  · exact ((C6_bonding_hangup_replies _ _ _ bonding_auth19 rfl rfl
      (Or.inl rfl)).1).trans (by decide)
  · exact ((C6_bonding_hangup_replies _ _ _ bonding_auth0 rfl rfl
      (Or.inr rfl)).1).trans (by decide)

/-- Result of `adapter_cancel_bonding`: the reply (`none` models the
handler returning without replying, as on the failed device-open path),
the adapter state, and whether the PIN-negative-reply command was
sent. -/
structure CancelBondingResult where
  reply : Option DBusReply
  adapter : Adapter
  neg_reply_sent : Bool
deriving DecidableEq, Repr

/-- Embedding of `adapter_cancel_bonding` (adapter.c:2751).
`addr_ok` models `check_address`.  Guards in source order: adapter
down, argument checks, no bonding or address mismatch, sender
mismatch; then `cancel` is marked.  If the pending PIN request for the
address was already replied, the channel is closed but the caller gets
NotAuthorized; otherwise a PIN-negative-reply command is sent (when
the device opens), the PIN entry removed, and the channel closed with
a success reply. -/
def adapter_cancel_bonding (hw : HciEnv) (a : Adapter)
    (sender address : String) (addr_ok : Bool) : CancelBondingResult :=
  if ¬ a.up then ⟨some DBusReply.not_ready, a, false⟩
  else if ¬ addr_ok then ⟨some DBusReply.invalid_args, a, false⟩
  else
    match a.bonding with
    | none => ⟨some DBusReply.bonding_not_in_progress, a, false⟩
    | some b =>
      if b.bdaddr ≠ address then
        ⟨some DBusReply.bonding_not_in_progress, a, false⟩
      else if b.sender ≠ sender then
        ⟨some DBusReply.not_authorized, a, false⟩
      else
        let b1 : BondingInfo := { b with cancel := true }
        match a.pin_reqs.find? (fun p => p.bdaddr == address) with
        | some p =>
          if p.replied then
            ⟨some DBusReply.not_authorized,
             { a with bonding := some { b1 with io_closed := true } }, false⟩
          else if ¬ hw.open_ok then
            ⟨none, { a with bonding := some b1 }, false⟩
          else
            ⟨some DBusReply.ok,
             { a with
               bonding := some { b1 with io_closed := true },
               pin_reqs := a.pin_reqs.erase p }, true⟩
        | none =>
          ⟨some DBusReply.ok,
           { a with bonding := some { b1 with io_closed := true } }, false⟩

/-- C7: CancelBondingProcess returns not-in-progress when no bonding
is in flight or the address mismatches; NotAuthorized when the sender
is not the original requestor; and when the PIN request for the
address was already replied it returns NotAuthorized while still
closing the bonding I/O channel, after marking the cancel flag. -/
theorem C7_cancel_bonding_guards (hw : HciEnv) (a : Adapter)
    (sender address : String) (hup : a.up = true) :
    (a.bonding = none →
      (adapter_cancel_bonding hw a sender address true).reply =
        some DBusReply.bonding_not_in_progress ∧
      (adapter_cancel_bonding hw a sender address true).adapter = a) ∧
    (∀ b : BondingInfo, a.bonding = some b → b.bdaddr ≠ address →
      (adapter_cancel_bonding hw a sender address true).reply =
        some DBusReply.bonding_not_in_progress ∧
      (adapter_cancel_bonding hw a sender address true).adapter = a) ∧
    (∀ b : BondingInfo, a.bonding = some b → b.bdaddr = address →
      b.sender ≠ sender →
      (adapter_cancel_bonding hw a sender address true).reply =
        some DBusReply.not_authorized ∧
      (adapter_cancel_bonding hw a sender address true).adapter = a) ∧
    (∀ (b : BondingInfo) (p : PinReq), a.bonding = some b →
      b.bdaddr = address → b.sender = sender →
      a.pin_reqs.find? (fun q => q.bdaddr == address) = some p →
      p.replied = true →
      (adapter_cancel_bonding hw a sender address true).reply =
        some DBusReply.not_authorized ∧
      (adapter_cancel_bonding hw a sender address true).adapter.bonding =
        some { b with cancel := true, io_closed := true }) := by
  refine ⟨fun hb => ?_, fun b hb hne => ?_, fun b hb heq hs => ?_,
    fun b p hb heq hs hfind hrep => ?_⟩
  · simp [adapter_cancel_bonding, hup, hb]
  · simp [adapter_cancel_bonding, hup, hb, hne]
  · simp [adapter_cancel_bonding, hup, hb, heq, hs]
  · simp [adapter_cancel_bonding, hup, hb, heq, hs, hfind, hrep]

/-- A pending PIN request for the bonding address that was already
replied to. -/
def pin1 : PinReq := { bdaddr := "00:11:22:33:44:55", replied := true }

/-- Witness for C7 at concrete inputs: no bonding; mismatched address;
mismatched sender; and the replied-PIN case where the reply is
NotAuthorized yet cancel is marked and the channel closed. -/
theorem C7_cancel_bonding_guards_witness :
    ((adapter_cancel_bonding hw_all_ok adapterBase "client1"
      "00:11:22:33:44:55" true).reply =
        some DBusReply.bonding_not_in_progress) ∧
    ((adapter_cancel_bonding hw_all_ok
      { adapterBase with bonding := some bonding1 } "client1"
      "AA:BB:CC:DD:EE:FF" true).reply =
        some DBusReply.bonding_not_in_progress) ∧
    ((adapter_cancel_bonding hw_all_ok
      { adapterBase with bonding := some bonding1 } "intruder"
      "00:11:22:33:44:55" true).reply = some DBusReply.not_authorized) ∧
    ((adapter_cancel_bonding hw_all_ok
      { adapterBase with bonding := some bonding1, pin_reqs := [pin1] }
      "client1" "00:11:22:33:44:55" true).reply =
        some DBusReply.not_authorized) ∧
    ((adapter_cancel_bonding hw_all_ok
      { adapterBase with bonding := some bonding1, pin_reqs := [pin1] }
      "client1" "00:11:22:33:44:55" true).adapter.bonding =
        some { bonding1 with cancel := true, io_closed := true }) := by
  refine ⟨?_, ?_, ?_, ?_, ?_⟩
  · exact ((C7_cancel_bonding_guards hw_all_ok adapterBase "client1"
      "00:11:22:33:44:55" rfl).1 rfl).1
  · exact ((C7_cancel_bonding_guards hw_all_ok
      { adapterBase with bonding := some bonding1 } "client1"
      "AA:BB:CC:DD:EE:FF" rfl).2.1 bonding1 rfl (by decide)).1
  · exact ((C7_cancel_bonding_guards hw_all_ok
      { adapterBase with bonding := some bonding1 } "intruder"
      "00:11:22:33:44:55" rfl).2.2.1 bonding1 rfl rfl (by decide)).1
  · exact ((C7_cancel_bonding_guards hw_all_ok
      { adapterBase with bonding := some bonding1, pin_reqs := [pin1] }
      "client1" "00:11:22:33:44:55" rfl).2.2.2 bonding1 pin1 rfl rfl rfl
      (by decide) rfl).1
  · exact ((C7_cancel_bonding_guards hw_all_ok
      { adapterBase with bonding := some bonding1, pin_reqs := [pin1] }
      "client1" "00:11:22:33:44:55" rfl).2.2.2 bonding1 pin1 rfl rfl rfl
      (by decide) rfl).2

/-! ## AudioDeviceStateMachine (profiles/audio/device.c) -/

/-- Aggregate audio device state (`audio_state_t`). -/
inductive AudioState where
  | disconnected
  | connecting
  | connected
deriving DecidableEq, Repr

/-- Sink sub-profile state (`sink_state_t`). -/
inductive SinkState where
  | disconnected
  | connecting
  | connected
  | playing
deriving DecidableEq, Repr

/-- The private per-device state (`struct dev_priv`): aggregate state,
sink-state mirror, the pending Connect and Disconnect requests
(modelled as held / not held), the three staggering timers, the
device-level disconnect-watch handle `dc_id` (0 = none) and the
`disconnecting` flag. -/
structure DevPriv where
  state : AudioState
  sink_state : SinkState
  conn_req : Bool
  dc_req : Bool
  control_timer : Nat
  avdtp_timer : Nat
  headset_timer : Nat
  dc_id : Nat
  disconnecting : Bool
deriving DecidableEq, Repr

/-- Sub-profile presence on an audio device (`struct audio_device`
sink/control handles; absence means the profile is unsupported for the
device). -/
structure AudioDev where
  sink : Bool
  control : Bool
deriving DecidableEq, Repr

/-- The registered device-level disconnect watches
(`device_add_disconnect_watch` hands out ids in order and
`device_remove_disconnect_watch` retires one); `active` is the set of
currently registered watches. -/
structure WatchEnv where
  next_id : Nat
  active : List Nat
deriving DecidableEq, Repr

/-- Result of `device_set_state`: the private state, the watch set,
whether the pending Disconnect request was answered, the answer to a
pending Connect request (`some true` success, `some false` the
"Connect Failed" error), and whether the State property-changed
notification was emitted. -/
structure SetStateResult where
  priv : DevPriv
  watches : WatchEnv
  dc_replied : Bool
  conn_replied : Option Bool
  emitted : Bool
deriving DecidableEq, Repr

/-- Embedding of `device_set_state` (device.c:211).  The watch
manipulation happens BEFORE the old==new early return: a call with
Connecting always registers a fresh watch and overwrites `dc_id`
(device.c:228), a call with Disconnected removes the held watch; only
afterwards does the same-state check return early.  On an actual
transition to Disconnected a pending Disconnect request is answered
and `disconnecting` cleared; a pending Connect request is answered as
soon as the new state is not Connecting (success exactly when
Connected). -/
def device_set_state (priv0 : DevPriv) (w0 : WatchEnv)
    (new_state : AudioState) : SetStateResult :=
  let pw :=
    if new_state = AudioState.disconnected then
      if priv0.dc_id ≠ 0 then
        ({ priv0 with dc_id := 0 },
         { w0 with active := w0.active.erase priv0.dc_id })
      else (priv0, w0)
    else if new_state = AudioState.connecting then
      ({ priv0 with dc_id := w0.next_id },
       { w0 with
         next_id := w0.next_id + 1,
         active := w0.active ++ [w0.next_id] })
    else (priv0, w0)
  let priv := pw.1
  let w := pw.2
  if priv.state = new_state then ⟨priv, w, false, none, false⟩
  else
    let priv1 := { priv with state := new_state }
    let pr2 :=
      if new_state = AudioState.disconnected then
        if priv1.dc_req then
          ({ priv1 with dc_req := false, disconnecting := false }, true)
        else ({ priv1 with disconnecting := false }, false)
      else (priv1, false)
    let pr3 :=
      if pr2.1.conn_req ∧ new_state ≠ AudioState.connecting then
        ({ pr2.1 with conn_req := false },
         some (new_state == AudioState.connected))
      else (pr2.1, none)
    ⟨pr3.1, w, pr2.2, pr3.2, true⟩

/-- A freshly registered audio device: disconnected, no pending
requests, no timers, no watch (device.c:460). -/
def dev_priv0 : DevPriv :=
  { state := AudioState.disconnected, sink_state := SinkState.disconnected,
    conn_req := false, dc_req := false, control_timer := 0,
    avdtp_timer := 0, headset_timer := 0, dc_id := 0,
    disconnecting := false }

/-- Initial watch environment: no watches registered, ids start at 1
(glib source/watch ids are nonzero). -/
def watch0 : WatchEnv := { next_id := 1, active := [] }

/-- First C9 step: entering Connecting from Disconnected. -/
def c9_step1 : SetStateResult :=
  device_set_state dev_priv0 watch0 AudioState.connecting

/-- Second C9 step: a same-state call with Connecting. -/
def c9_step2 : SetStateResult :=
  device_set_state c9_step1.priv c9_step1.watches AudioState.connecting

/-- Counterexample to C9: a `device_set_state` call that sets the
state to the value it already has (Connecting) DOES register an
additional disconnect watch: after the same-state call two watches are
registered while only the newest handle is held, so "at most one
device-level disconnect watch at any time" fails. -/
theorem C9_counterexample :
    c9_step1.priv.state = AudioState.connecting ∧
    c9_step1.watches.active = [1] ∧
    c9_step2.emitted = false ∧
    c9_step2.priv.state = AudioState.connecting ∧
    c9_step2.watches.active = [1, 2] ∧
    c9_step2.priv.dc_id = 2 ∧
    ¬ c9_step2.watches.active.length ≤ 1 := by
  decide

/-- C9 (amended): on every `device_set_state` call the watch effect is
per-argument, not per-transition: a call with Connecting — including a
same-state call — always registers one fresh watch and overwrites the
held handle (the previously held watch is not removed); a call with
Disconnected removes exactly the currently held watch and clears the
handle (no-op when none is held); a call with Connected leaves the
watch set and handle unchanged. -/
theorem C9_watch_per_call (priv : DevPriv) (w : WatchEnv) (s : AudioState) :
    (s = AudioState.connecting →
      (device_set_state priv w s).watches.active = w.active ++ [w.next_id] ∧
      (device_set_state priv w s).priv.dc_id = w.next_id) ∧
    (s = AudioState.disconnected → priv.dc_id ≠ 0 →
      (device_set_state priv w s).watches.active = w.active.erase priv.dc_id ∧
      (device_set_state priv w s).priv.dc_id = 0) ∧
    (s = AudioState.disconnected → priv.dc_id = 0 →
      (device_set_state priv w s).watches = w ∧
      (device_set_state priv w s).priv.dc_id = 0) ∧
    (s = AudioState.connected →
      (device_set_state priv w s).watches = w ∧
      (device_set_state priv w s).priv.dc_id = priv.dc_id) := by
  refine ⟨fun hs => ?_, fun hs hdc => ?_, fun hs hdc => ?_, fun hs => ?_⟩ <;>
    subst hs
  · by_cases h1 : priv.state = AudioState.connecting <;>
      simp [device_set_state, h1]
  · by_cases h1 : priv.state = AudioState.disconnected <;>
      by_cases h2 : priv.dc_req <;> by_cases h3 : priv.conn_req <;>
      simp [device_set_state, hdc, h1, h2, h3]
  · by_cases h1 : priv.state = AudioState.disconnected <;>
      by_cases h2 : priv.dc_req <;> by_cases h3 : priv.conn_req <;>
      simp [device_set_state, hdc, h1, h2, h3]
  · by_cases h1 : priv.state = AudioState.connected <;>
      by_cases h3 : priv.conn_req <;>
      simp [device_set_state, h1, h3]

/-- Witness for the amended C9 at concrete inputs: a Connecting call
from the initial state registers watch 1 and holds it; a Disconnected
call afterwards removes it; a Connected call changes nothing. -/
theorem C9_watch_per_call_witness :
    ((device_set_state dev_priv0 watch0
      AudioState.connecting).watches.active = watch0.active ++ [1] ∧
     (device_set_state dev_priv0 watch0
      AudioState.connecting).priv.dc_id = 1) ∧
    ((device_set_state c9_step1.priv c9_step1.watches
      AudioState.disconnected).watches.active =
        c9_step1.watches.active.erase c9_step1.priv.dc_id ∧
     (device_set_state c9_step1.priv c9_step1.watches
      AudioState.disconnected).priv.dc_id = 0) ∧
    ((device_set_state dev_priv0 watch0 AudioState.connected).watches =
      watch0) :=
  ⟨(C9_watch_per_call dev_priv0 watch0 AudioState.connecting).1 rfl,
   (C9_watch_per_call c9_step1.priv c9_step1.watches
      AudioState.disconnected).2.1 rfl (by decide),
   ((C9_watch_per_call dev_priv0 watch0 AudioState.connected).2.2.2 rfl).1⟩

/-- Replies of the audio device Connect/Disconnect handlers.  `ok` is
an immediate success method-return (produced by `dev_disconnect`),
`deferred` models returning NULL with the request stored for a later
reply from `device_set_state`. -/
inductive AudioReply where
  | ok
  | already_in_progress
  | already_connected
  | not_connected
  | failed_msg (s : String)
  | deferred
deriving DecidableEq, Repr

/-- Embedding of `dev_connect` (device.c:339).  `session_ok` models
`avdtp_get` succeeding; `setup_effect` models the synchronous callback
activity that `sink_setup_stream` may trigger (sink callbacks can call
`device_set_state` re-entrantly, so the private state after the call
is an arbitrary function of the state before; the source also sets
`dev->auto_connect = TRUE`, which no claim reads).  After the two
state guards the handler requires the state to have reached Connecting
synchronously, else it fails with "Connect Failed"; otherwise the
request is stored for a deferred reply. -/
def dev_connect (dev : AudioDev) (priv0 : DevPriv) (session_ok : Bool)
    (setup_effect : DevPriv → DevPriv) : AudioReply × DevPriv :=
  if priv0.state = AudioState.connecting then
    (AudioReply.already_in_progress, priv0)
  else if priv0.state = AudioState.connected then
    (AudioReply.already_connected, priv0)
  else if priv0.state ≠ AudioState.connecting ∧ dev.sink ∧ ¬ session_ok then
    (AudioReply.failed_msg "Failed to get AVDTP session", priv0)
  else
    let priv1 := if priv0.state ≠ AudioState.connecting ∧ dev.sink then
      setup_effect priv0 else priv0
    if priv1.state ≠ AudioState.connecting then
      (AudioReply.failed_msg "Connect Failed", priv1)
    else (AudioReply.deferred, { priv1 with conn_req := true })

/-- Embedding of `dev_disconnect` (device.c:373): not-connected while
Disconnected; immediate success while a disconnect is already pending;
otherwise stores the request, cancels the control timer and requests
the sub-profile disconnects, replying immediately when the sink needs
no action. -/
def dev_disconnect (dev : AudioDev) (priv0 : DevPriv) :
    AudioReply × DevPriv :=
  if priv0.state = AudioState.disconnected then
    (AudioReply.not_connected, priv0)
  else if priv0.dc_req then (AudioReply.ok, priv0)
  else
    let priv1 := { priv0 with dc_req := true }
    let priv2 := if dev.control then { priv1 with control_timer := 0 }
      else priv1
    if dev.sink ∧ priv2.sink_state ≠ SinkState.disconnected then
      (AudioReply.deferred, priv2)
    else (AudioReply.ok, { priv2 with dc_req := false })

/-- C8: Connect() while Connecting replies InProgress, while Connected
replies AlreadyConnected; from Disconnected it either stores the
request with the state synchronously driven to Connecting (deferred
reply) or returns a failure ("Failed to get AVDTP session" or
"Connect Failed"); and it never returns an immediate success reply —
in particular never success while the state remains Disconnected. -/
theorem C8_dev_connect_behaviour (dev : AudioDev) (priv : DevPriv)
    (session_ok : Bool) (eff : DevPriv → DevPriv) :
    (priv.state = AudioState.connecting →
      dev_connect dev priv session_ok eff =
        (AudioReply.already_in_progress, priv)) ∧
    (priv.state = AudioState.connected →
      dev_connect dev priv session_ok eff =
        (AudioReply.already_connected, priv)) ∧
    (priv.state = AudioState.disconnected →
      ((dev_connect dev priv session_ok eff).1 = AudioReply.deferred ∧
       (dev_connect dev priv session_ok eff).2.state =
         AudioState.connecting ∧
       (dev_connect dev priv session_ok eff).2.conn_req = true) ∨
      (dev_connect dev priv session_ok eff).1 =
        AudioReply.failed_msg "Failed to get AVDTP session" ∨
      (dev_connect dev priv session_ok eff).1 =
        AudioReply.failed_msg "Connect Failed") ∧
    (dev_connect dev priv session_ok eff).1 ≠ AudioReply.ok := by
  refine ⟨fun h => ?_, fun h => ?_, fun h => ?_, ?_⟩
  · simp [dev_connect, h]
  · simp [dev_connect, h]
  · by_cases h3 : dev.sink <;> by_cases h4 : session_ok <;>
      by_cases h5 : (eff priv).state = AudioState.connecting <;>
      simp [dev_connect, h, h3, h4, h5]
  · by_cases h1 : priv.state = AudioState.connecting <;>
      by_cases h2 : priv.state = AudioState.connected <;>
      by_cases h3 : dev.sink <;> by_cases h4 : session_ok <;>
      by_cases h5 : (eff priv).state = AudioState.connecting <;>
      simp [dev_connect, h1, h2, h3, h4, h5]

/-- Synchronous setup effect that drives the state to Connecting, as
the sink Connecting callback does. -/
def connectingEffect (p : DevPriv) : DevPriv :=
  { p with state := AudioState.connecting }

/-- Witness for C8 at concrete inputs: the three guard replies and the
successful deferred path from Disconnected with a sink present and a
setup effect reaching Connecting. -/
theorem C8_dev_connect_behaviour_witness :
    (dev_connect ⟨true, true⟩ { dev_priv0 with state := AudioState.connecting }
      true connectingEffect =
      (AudioReply.already_in_progress,
        { dev_priv0 with state := AudioState.connecting })) ∧
    (dev_connect ⟨true, true⟩ { dev_priv0 with state := AudioState.connected }
      true connectingEffect =
      (AudioReply.already_connected,
        { dev_priv0 with state := AudioState.connected })) ∧
    (((dev_connect ⟨true, true⟩ dev_priv0 true connectingEffect).1 =
        AudioReply.deferred ∧
      (dev_connect ⟨true, true⟩ dev_priv0 true connectingEffect).2.state =
        AudioState.connecting ∧
      (dev_connect ⟨true, true⟩ dev_priv0 true connectingEffect).2.conn_req =
        true) ∨
     (dev_connect ⟨true, true⟩ dev_priv0 true connectingEffect).1 =
       AudioReply.failed_msg "Failed to get AVDTP session" ∨
     (dev_connect ⟨true, true⟩ dev_priv0 true connectingEffect).1 =
       AudioReply.failed_msg "Connect Failed") ∧
    (dev_connect ⟨true, true⟩ dev_priv0 false connectingEffect).1 ≠
      AudioReply.ok :=
  ⟨(C8_dev_connect_behaviour ⟨true, true⟩
      { dev_priv0 with state := AudioState.connecting } true
      connectingEffect).1 rfl,
   (C8_dev_connect_behaviour ⟨true, true⟩
      { dev_priv0 with state := AudioState.connected } true
      connectingEffect).2.1 rfl,
   (C8_dev_connect_behaviour ⟨true, true⟩ dev_priv0 true
      connectingEffect).2.2.1 rfl,
   (C8_dev_connect_behaviour ⟨true, true⟩ dev_priv0 false
      connectingEffect).2.2.2⟩

end Bluez
